import Mathlib

/-!
Verification of the financial calculation and card-matching core of
`src/app.py` (Simplified Financial Assistant Application).

Modelling conventions:
* Python floats are modelled by `ℚ` (the spec's arithmetic is exact rational
  arithmetic on the inputs appearing in the claims).
* A JSON field read with `dict.get` can be absent, `None`, a number, or some
  other (non-numeric) value; this is the inductive `JVal`.
* A Python expression that raises (`ZeroDivisionError`, `AttributeError`,
  `TypeError`) is modelled by `Option`/`none`.
* Only the fields of the source's records that the embedded computations read
  are modelled; display-only free-text fields (benefits, welcome offers,
  lender names handed verbatim to the prompt builder) do not influence any
  computation in the claims and are omitted from the record types.
-/

namespace FinApp

/-- A JSON field value as obtained by `dict.get` in the source: the key can be
absent (`missing`), bound to `None` (`null`), bound to a number (`num`), or
bound to a non-numeric value such as a string (`str`). -/
inductive JVal where
  | missing : JVal
  | null : JVal
  | num : ℚ → JVal
  | str : String → JVal
deriving DecidableEq

/-- src/app.py line 124 (`analyze_emi_affordability`):
`debt_to_income_ratio = (monthly_debt / income) * 100 if income > 0 else 0`. -/
def debt_to_income_ratio (monthly_debt income : ℚ) : ℚ :=
  if 0 < income then monthly_debt / income * 100 else 0

/-- src/app.py lines 777-779 (`main`, financial summary):
`income = credit_info.get('income', 0)` followed by
`if income is None or not isinstance(income, (int, float)) or income <= 0:
income = 1`.  A missing key yields the `get` default `0`, which is then
replaced by `1`; `None` and non-numeric values are likewise replaced by `1`. -/
def mainIncome (v : JVal) : ℚ :=
  match v with
  | JVal.num q => if q ≤ 0 then 1 else q
  | _ => 1

/-- src/app.py line 780 (`main`):
`debt_to_income_ratio = (monthly_debt / income) * 100 if income > 0 else 0`,
applied to the income produced by lines 777-779 (`mainIncome`). -/
def main_debt_to_income_ratio (monthly_debt : ℚ) (v : JVal) : ℚ :=
  let income := mainIncome v
  if 0 < income then monthly_debt / income * 100 else 0

/-- src/app.py lines 73 and 84-85 (`analyze_credit_score`):
`credit_info.get('credit_score', 700)` followed by the `None` check replacing
`None` by `700`.  A present non-`None` value (numeric or not) is kept. -/
def creditScoreOrDefault (v : JVal) : JVal :=
  match v with
  | JVal.missing => JVal.num 700
  | JVal.null => JVal.num 700
  | x => x

/-- src/app.py lines 74 and 86-87 (`analyze_credit_score`) and lines 116-119
(`analyze_emi_affordability`): `credit_info.get('income', 50000)` followed by
the `None` check replacing `None` by `50000`.  A present non-`None` value is
kept, including `0`, negative numbers and non-numeric values. -/
def incomeOrDefault (v : JVal) : JVal :=
  match v with
  | JVal.missing => JVal.num 50000
  | JVal.null => JVal.num 50000
  | x => x

/-- src/app.py lines 421-423 (`visualize_debt_to_income`):
`income = credit_info.get("income")` followed by
`if income is None or not isinstance(income, (int, float)) or income <= 0:
income = 50000`. -/
def vizIncome (v : JVal) : ℚ :=
  match v with
  | JVal.num q => if q ≤ 0 then 50000 else q
  | _ => 50000

/-- A loan record as read by the EMI totals; only the `emi` field is read. -/
structure LoanRec where
  emi : JVal
deriving DecidableEq

/-- A held credit-card account as read by the dues totals; only the
`minimum_due` field is read. -/
structure CardAcct where
  minimum_due : JVal
deriving DecidableEq

/-- src/app.py lines 400-407 (`visualize_debt_to_income`): skip `None` list
entries, read `loan.get("emi")`, and add it only when it is a number. -/
def total_emi (loans : List (Option LoanRec)) : ℚ :=
  loans.foldl
    (fun acc l? =>
      match l? with
      | none => acc
      | some l =>
        match l.emi with
        | JVal.num q => acc + q
        | _ => acc)
    0

/-- src/app.py lines 409-416 (`visualize_debt_to_income`): the analogous sum
of `card.get("minimum_due")` over the held cards. -/
def total_minimum_dues (cards : List (Option CardAcct)) : ℚ :=
  cards.foldl
    (fun acc c? =>
      match c? with
      | none => acc
      | some c =>
        match c.minimum_due with
        | JVal.num q => acc + q
        | _ => acc)
    0

/-- src/app.py line 121 (`analyze_emi_affordability`):
`total_emi = sum(loan.get('emi', 0) for loan in loans)`.
A `None` list entry raises `AttributeError` (`None` has no `.get`), and a
present non-numeric `emi` value (including `None`) raises `TypeError` inside
`sum`; both are modelled by `none`.  A missing `emi` key contributes the `get`
default `0`. -/
def totalEmiAnalyze (loans : List (Option LoanRec)) : Option ℚ :=
  loans.foldl
    (fun acc l? =>
      match acc, l? with
      | none, _ => none
      | some _, none => none
      | some a, some l =>
        match l.emi with
        | JVal.missing => some a
        | JVal.num q => some (a + q)
        | _ => none)
    (some 0)

/-- src/app.py line 122 (`analyze_emi_affordability`):
`card_minimum_dues = sum(card.get('minimum_due', 0) for card in credit_cards)`,
with the same failure behaviour as `totalEmiAnalyze`. -/
def totalMinimumDuesAnalyze (cards : List (Option CardAcct)) : Option ℚ :=
  cards.foldl
    (fun acc c? =>
      match acc, c? with
      | none, _ => none
      | some _, none => none
      | some a, some c =>
        match c.minimum_due with
        | JVal.missing => some a
        | JVal.num q => some (a + q)
        | _ => none)
    (some 0)

/-- The 50/30/20 split computed at src/app.py lines 426-428. -/
structure Allocation where
  essentials : ℚ
  wants : ℚ
  savings : ℚ
deriving DecidableEq

/-- src/app.py lines 426-428 (`visualize_debt_to_income`):
`essentials = income * 0.5`, `wants = income * 0.3`, `savings = income * 0.2`. -/
def income_allocation (income : ℚ) : Allocation :=
  { essentials := income * 0.5
    wants := income * 0.3
    savings := income * 0.2 }

/-- The EMI calculator outputs computed at src/app.py lines 836-842. -/
structure EmiResult where
  monthly_payment : ℚ
  total_payment : ℚ
  total_interest : ℚ
deriving DecidableEq

/-- src/app.py lines 834-842 (`main`, EMI calculator):
`monthly_interest_rate = interest_rate / (12 * 100)`,
`emi = loan_amount * monthly_interest_rate * ((1 + monthly_interest_rate) **
tenure_months) / (((1 + monthly_interest_rate) ** tenure_months) - 1)`,
`total_payment = emi * tenure_months`,
`total_interest = total_payment - loan_amount`.
A zero denominator raises `ZeroDivisionError` in Python; this is modelled by
`none`.  There is no guard for a zero rate or zero tenure in the source. -/
def emi_amortization (loan_amount interest_rate : ℚ) (tenure_months : ℕ) :
    Option EmiResult :=
  let monthly_interest_rate := interest_rate / (12 * 100)
  let den := (1 + monthly_interest_rate) ^ tenure_months - 1
  if den = 0 then none
  else
    let emi := loan_amount * monthly_interest_rate *
      (1 + monthly_interest_rate) ^ tenure_months / den
    some
      { monthly_payment := emi
        total_payment := emi * tenure_months
        total_interest := emi * tenure_months - loan_amount }

/-- A catalog credit-card offer from `generate_credit_card_database`
(src/app.py lines 291-323).  `Option` fields model keys that may be absent
from a catalog dictionary (read with `card.get(key, default)` in
`get_suitable_cards`); display-only string fields (`benefits`,
`welcome_offer`) are not read by any embedded computation and are omitted. -/
structure CardOffer where
  name : String
  issuer : String
  annual_fee : ℚ
  income_requirement : Option ℚ
  credit_score_requirement : Option ℚ
  category : Option String
deriving DecidableEq

/-- src/app.py line 338: `card.get("credit_score_requirement", 0)`. -/
def scoreReq (c : CardOffer) : ℚ :=
  c.credit_score_requirement.getD 0

/-- src/app.py line 339: `card.get("income_requirement", 0)`. -/
def incomeReq (c : CardOffer) : ℚ :=
  c.income_requirement.getD 0

/-- src/app.py line 340: `card.get("category", "")`. -/
def categoryOf (c : CardOffer) : String :=
  c.category.getD ""

/-- src/app.py line 343 (`get_suitable_cards`):
`card_score_req <= credit_score and card_income_req <= annual_income`. -/
def eligibleB (credit_score annual_income : ℚ) (c : CardOffer) : Bool :=
  decide (scoreReq c ≤ credit_score) && decide (incomeReq c ≤ annual_income)

/-- src/app.py line 345 (`get_suitable_cards`):
`not preferences or card_category in preferences`.  Python list membership
`in` compares strings with `==`, a case-sensitive exact match. -/
def matchesPref (preferences : List String) (c : CardOffer) : Bool :=
  preferences.isEmpty || preferences.contains (categoryOf c)

/-- src/app.py lines 336-346 (`get_suitable_cards`): the loop collecting, in
catalog order, the cards passing both the requirement check and the category
preference check. -/
def suitableFilter (credit_score monthly_income : ℚ) (preferences : List String)
    (card_database : List CardOffer) : List CardOffer :=
  card_database.filter
    (fun card => eligibleB credit_score (monthly_income * 12) card &&
      matchesPref preferences card)

/-- src/app.py line 349 sort key:
`lambda x: (x.get("income_requirement", 0), x.get("credit_score_requirement", 0))`. -/
def sortKey (c : CardOffer) : ℚ × ℚ :=
  (incomeReq c, scoreReq c)

/-- Lexicographic order on sort-key pairs: Python compares tuples
lexicographically. -/
def keyLe (a b : ℚ × ℚ) : Prop :=
  a.1 < b.1 ∨ (a.1 = b.1 ∧ a.2 ≤ b.2)

instance (a b : ℚ × ℚ) : Decidable (keyLe a b) :=
  inferInstanceAs (Decidable (a.1 < b.1 ∨ (a.1 = b.1 ∧ a.2 ≤ b.2)))

/-- The "may come before" relation of the descending sort at src/app.py line
349: `x` may precede `y` exactly when `sortKey y ≤ sortKey x`
lexicographically.  Ties are allowed in both directions, and the stable sort
keeps the input order for them — exactly the documented behaviour of Python's
`list.sort(key=..., reverse=True)`. -/
def cardBefore (x y : CardOffer) : Prop :=
  keyLe (sortKey y) (sortKey x)

instance : DecidableRel cardBefore := fun x y =>
  inferInstanceAs (Decidable (keyLe (sortKey y) (sortKey x)))

instance : IsTotal CardOffer cardBefore where
  total x y := by
    unfold cardBefore keyLe
    rcases lt_trichotomy (sortKey x).1 (sortKey y).1 with h | h | h
    · exact Or.inr (Or.inl h)
    · rcases le_total (sortKey y).2 (sortKey x).2 with h2 | h2
      · exact Or.inl (Or.inr ⟨h.symm, h2⟩)
      · exact Or.inr (Or.inr ⟨h, h2⟩)
    · exact Or.inl (Or.inl h)

instance : IsTrans CardOffer cardBefore where
  trans x y z hxy hyz := by
    unfold cardBefore keyLe at hxy hyz ⊢
    rcases hxy with h1 | ⟨e1, l1⟩
    · rcases hyz with h2 | ⟨e2, l2⟩
      · exact Or.inl (h2.trans h1)
      · exact Or.inl (by rw [e2]; exact h1)
    · rcases hyz with h2 | ⟨e2, l2⟩
      · exact Or.inl (by rw [← e1]; exact h2)
      · exact Or.inr ⟨e2.trans e1, l2.trans l1⟩

/-- src/app.py line 349: `suitable_cards.sort(key=..., reverse=True)` — the
stable descending sort, realised by insertion sort with `cardBefore` (Python's
sort is stable; `reverse=True` reverses comparisons, not equal-key order). -/
def sortDesc (l : List CardOffer) : List CardOffer :=
  l.insertionSort cardBefore

/-- src/app.py lines 336-349 (`get_suitable_cards`): the sorted suitable list
before the final `[:5]` truncation, with the `None` defaulting of lines
328-331 applied to the profile inputs. -/
def preTrunc (credit_score monthly_income : Option ℚ) (preferences : List String)
    (card_database : List CardOffer) : List CardOffer :=
  sortDesc
    (suitableFilter (credit_score.getD 700) (monthly_income.getD 50000)
      preferences card_database)

/-- src/app.py lines 325-352 (`get_suitable_cards`): `None` inputs default to
700 / 50000 (lines 328-331), cards are filtered (lines 336-346), sorted
descending by requirements (line 349), and truncated with `[:5]` (line 352). -/
def get_suitable_cards (credit_score monthly_income : Option ℚ)
    (preferences : List String) (card_database : List CardOffer) :
    List CardOffer :=
  (preTrunc credit_score monthly_income preferences card_database).take 5

/-- First catalog entry of `generate_credit_card_database`
(src/app.py lines 296-306). -/
def cardDinersBlack : CardOffer :=
  { name := "HDFC Diners Club Black"
    issuer := "HDFC Bank"
    annual_fee := 10000
    income_requirement := some 1500000
    credit_score_requirement := some 750
    category := some "travel" }

/-- Second catalog entry of `generate_credit_card_database`
(src/app.py lines 308-318). -/
def cardSbiElite : CardOffer :=
  { name := "SBI Card ELITE"
    issuer := "SBI Card"
    annual_fee := 4999
    income_requirement := some 900000
    credit_score_requirement := some 720
    category := some "travel" }

/-- src/app.py lines 291-323: the static catalog (the source builds exactly
these two entries; the remaining entries are elided by a comment there). -/
def generate_credit_card_database : List CardOffer :=
  [cardDinersBlack, cardSbiElite]

/-! ### Helper lemmas about the stable descending sort -/

theorem sortKey_ne_of_not_before {x y : CardOffer} (h : ¬ cardBefore x y) :
    sortKey y ≠ sortKey x := by
  intro e
  apply h
  unfold cardBefore keyLe
  rw [e]
  exact Or.inr ⟨rfl, le_refl _⟩

theorem filter_orderedInsert_pos (v : ℚ × ℚ) (x : CardOffer) (hx : sortKey x = v) :
    ∀ l : List CardOffer,
      (l.orderedInsert cardBefore x).filter (fun c => sortKey c = v) =
        x :: l.filter (fun c => sortKey c = v)
  | [] => by simp [hx]
  | y :: ys => by
    by_cases h : cardBefore x y
    · rw [List.orderedInsert, if_pos h, List.filter_cons_of_pos (by simp [hx])]
    · have hy : ¬ (sortKey y = v) := by
        rw [← hx]
        exact sortKey_ne_of_not_before h
      rw [List.orderedInsert, if_neg h, List.filter_cons_of_neg (by simp [hy]),
        List.filter_cons_of_neg (by simp [hy]), filter_orderedInsert_pos v x hx ys]

theorem filter_orderedInsert_neg (v : ℚ × ℚ) (x : CardOffer) (hx : ¬ sortKey x = v) :
    ∀ l : List CardOffer,
      (l.orderedInsert cardBefore x).filter (fun c => sortKey c = v) =
        l.filter (fun c => sortKey c = v)
  | [] => by simp [hx]
  | y :: ys => by
    by_cases h : cardBefore x y
    · rw [List.orderedInsert, if_pos h, List.filter_cons_of_neg (by simp [hx])]
    · rw [List.orderedInsert, if_neg h, List.filter_cons, List.filter_cons,
        filter_orderedInsert_neg v x hx ys]

theorem filter_sortDesc (v : ℚ × ℚ) :
    ∀ l : List CardOffer,
      (sortDesc l).filter (fun c => sortKey c = v) = l.filter (fun c => sortKey c = v)
  | [] => rfl
  | x :: xs => by
    show ((sortDesc xs).orderedInsert cardBefore x).filter _ = _
    by_cases hx : sortKey x = v
    · rw [filter_orderedInsert_pos v x hx, filter_sortDesc v xs,
        List.filter_cons_of_pos (by simp [hx])]
    · rw [filter_orderedInsert_neg v x hx, filter_sortDesc v xs,
        List.filter_cons_of_neg (by simp [hx])]

theorem mem_sortDesc {c : CardOffer} {l : List CardOffer} : c ∈ sortDesc l ↔ c ∈ l :=
  List.mem_insertionSort cardBefore

theorem pairwise_sortDesc (l : List CardOffer) : (sortDesc l).Pairwise cardBefore :=
  List.sorted_insertionSort cardBefore l

/-! ### Claims -/

/-- C1 counterexample: at the financial-summary site in `main` (src/app.py
lines 776-781), a profile income of `0` with monthly debt `59000` produces a
debt-to-income ratio of `5900000`, not `0` — the income is first replaced by
`1`, so the claimed `income <= 0 → ratio = 0` contract fails at this site. -/
theorem C1_counterexample :
    main_debt_to_income_ratio 59000 (JVal.num 0) = 5900000 ∧
      main_debt_to_income_ratio 59000 (JVal.num 0) ≠ 0 := by
  constructor
  · norm_num [main_debt_to_income_ratio, mainIncome]
  · norm_num [main_debt_to_income_ratio, mainIncome]

/-- C1 (amended): `analyze_emi_affordability` (src/app.py line 124) computes
`monthly_debt / income * 100` for `income > 0` and exactly `0` for
`income ≤ 0`, never dividing by a non-positive income; the summary site in
`main` (lines 776-781) instead replaces a missing, `None`, non-numeric, or
`≤ 0` income by `1`, so its displayed ratio there is `monthly_debt * 100`;
at both sites the divisor is strictly positive whenever a division happens. -/
theorem C1_dti_sites :
    (∀ monthly_debt income : ℚ, 0 < income →
        debt_to_income_ratio monthly_debt income = monthly_debt / income * 100) ∧
    (∀ monthly_debt income : ℚ, income ≤ 0 →
        debt_to_income_ratio monthly_debt income = 0) ∧
    (∀ monthly_debt q : ℚ, q ≤ 0 →
        main_debt_to_income_ratio monthly_debt (JVal.num q) = monthly_debt * 100) ∧
    (∀ monthly_debt q : ℚ, 0 < q →
        main_debt_to_income_ratio monthly_debt (JVal.num q) =
          monthly_debt / q * 100) ∧
    (∀ v : JVal, 0 < mainIncome v) := by
  refine ⟨?_, ?_, ?_, ?_, ?_⟩
  · intro d i h
    rw [debt_to_income_ratio, if_pos h]
  · intro d i h
    rw [debt_to_income_ratio, if_neg (not_lt.mpr h)]
  · intro d q h
    show (if 0 < mainIncome (JVal.num q) then d / mainIncome (JVal.num q) * 100 else 0)
      = d * 100
    rw [show mainIncome (JVal.num q) = 1 from if_pos h]
    norm_num
  · intro d q h
    show (if 0 < mainIncome (JVal.num q) then d / mainIncome (JVal.num q) * 100 else 0)
      = d / q * 100
    rw [show mainIncome (JVal.num q) = q from if_neg (not_le.mpr h), if_pos h]
  · intro v
    cases v with
    | num q =>
        by_cases h : q ≤ 0
        · rw [show mainIncome (JVal.num q) = 1 from if_pos h]
          norm_num
        · rw [show mainIncome (JVal.num q) = q from if_neg h]
          exact lt_of_not_le h
    | missing => norm_num [mainIncome]
    | null => norm_num [mainIncome]
    | str s => norm_num [mainIncome]

/-- C1 witness: the amended characterisation applied at
`monthly_debt = 59000`, `income = 150000`. -/
theorem C1_dti_sites_witness : debt_to_income_ratio 59000 150000 = 118 / 3 := by
  have h := C1_dti_sites.1 59000 150000 (by norm_num)
  rw [h]
  norm_num

/-- C3 counterexample: the EMI computation of `main` (src/app.py lines
834-842) at zero annual rate, `principal = 1200`, `tenure = 12` fails with a
zero denominator (Python `ZeroDivisionError`, modelled `none`) instead of
returning the claimed straight-line payment `1200 / 12 = 100`. -/
theorem C3_counterexample : emi_amortization 1200 0 12 = none := by
  norm_num [emi_amortization]

/-- C3 (amended): the source's EMI computation has no guard for the
degenerate inputs — for a zero annual rate (any tenure) and for a zero tenure
(any rate) the denominator `(1+r)^n - 1` is `0` and the computation fails
with a division-by-zero error (modelled `none`) rather than returning the
straight-line payment or reporting an input-validation failure; in the app
these inputs are unreachable because the sliders force `interest_rate ≥ 5.0`
and `tenure ≥ 12` months (src/app.py lines 830-831). -/
theorem C3_no_zero_guard :
    (∀ loan_amount : ℚ, ∀ tenure_months : ℕ,
        emi_amortization loan_amount 0 tenure_months = none) ∧
    (∀ loan_amount interest_rate : ℚ,
        emi_amortization loan_amount interest_rate 0 = none) := by
  constructor
  · intro p n
    norm_num [emi_amortization]
  · intro p r
    norm_num [emi_amortization]

/-- C4 counterexample: `analyze_emi_affordability` and `analyze_credit_score`
keep a present income of `0` unchanged (src/app.py lines 116-119 and 74,
86-87), whereas `visualize_debt_to_income` (lines 421-423) replaces it by
`50000` — the `≤ 0 → 50000` substitution is not applied uniformly. -/
theorem C4_counterexample :
    incomeOrDefault (JVal.num 0) = JVal.num 0 ∧
      vizIncome (JVal.num 0) = 50000 ∧ JVal.num 0 ≠ JVal.num 50000 := by
  refine ⟨rfl, by norm_num [vizIncome], by decide⟩

/-- C4 (amended): a missing or `None` credit_score becomes `700` and a
missing or `None` income becomes `50000` at `analyze_credit_score` /
`analyze_emi_affordability`, but any present value — including `0`, negative
numbers and non-numeric values — is kept there; the full rule "missing,
`None`, non-numeric, or `≤ 0` income becomes `50000`" is applied only at
`visualize_debt_to_income`; the summary site in `main` replaces such incomes
by `1` instead. -/
theorem C4_site_defaults :
    creditScoreOrDefault JVal.missing = JVal.num 700 ∧
    creditScoreOrDefault JVal.null = JVal.num 700 ∧
    (∀ q : ℚ, creditScoreOrDefault (JVal.num q) = JVal.num q) ∧
    (∀ s : String, creditScoreOrDefault (JVal.str s) = JVal.str s) ∧
    incomeOrDefault JVal.missing = JVal.num 50000 ∧
    incomeOrDefault JVal.null = JVal.num 50000 ∧
    (∀ q : ℚ, incomeOrDefault (JVal.num q) = JVal.num q) ∧
    vizIncome JVal.missing = 50000 ∧
    vizIncome JVal.null = 50000 ∧
    (∀ s : String, vizIncome (JVal.str s) = 50000) ∧
    (∀ q : ℚ, q ≤ 0 → vizIncome (JVal.num q) = 50000) ∧
    (∀ q : ℚ, 0 < q → vizIncome (JVal.num q) = q) ∧
    (∀ q : ℚ, q ≤ 0 → mainIncome (JVal.num q) = 1) := by
  refine ⟨rfl, rfl, fun q => rfl, fun s => rfl, rfl, rfl, fun q => rfl, rfl, rfl,
    fun s => rfl, ?_, ?_, ?_⟩
  · intro q h
    exact if_pos h
  · intro q h
    exact if_neg (not_le.mpr h)
  · intro q h
    exact if_pos h

/-- C4 witness: the amended site characterisation applied at income `-5`
(visualisation site) and at income `0` (summary site). -/
theorem C4_site_defaults_witness :
    vizIncome (JVal.num (-5)) = 50000 ∧ mainIncome (JVal.num 0) = 1 := by
  obtain ⟨-, -, -, -, -, -, -, -, -, -, h11, -, h13⟩ := C4_site_defaults
  exact ⟨h11 (-5) (by norm_num), h13 0 (by norm_num)⟩

/-- C5: for a positive annual rate and positive tenure, the source's EMI
computation (src/app.py lines 834-842) returns exactly the reducing-balance
results: with `r = annual_rate / 1200`,
`monthly_payment = principal * r * (1+r)^n / ((1+r)^n - 1)`,
`total_payment = monthly_payment * n`, and
`total_interest = total_payment - principal`. -/
theorem C5_emi_formula (loan_amount interest_rate : ℚ) (tenure_months : ℕ)
    (hr : 0 < interest_rate) (hn : 0 < tenure_months) :
    emi_amortization loan_amount interest_rate tenure_months =
      some
        { monthly_payment := loan_amount * (interest_rate / 1200) *
            (1 + interest_rate / 1200) ^ tenure_months /
            ((1 + interest_rate / 1200) ^ tenure_months - 1)
          total_payment := loan_amount * (interest_rate / 1200) *
            (1 + interest_rate / 1200) ^ tenure_months /
            ((1 + interest_rate / 1200) ^ tenure_months - 1) * tenure_months
          total_interest := loan_amount * (interest_rate / 1200) *
            (1 + interest_rate / 1200) ^ tenure_months /
            ((1 + interest_rate / 1200) ^ tenure_months - 1) * tenure_months -
            loan_amount } := by
  have h1200 : interest_rate / (12 * 100) = interest_rate / 1200 := by norm_num
  have hr' : 0 < interest_rate / 1200 := by positivity
  have hpow : 1 < (1 + interest_rate / 1200) ^ tenure_months := by
    apply one_lt_pow₀ (by linarith)
    omega
  have hden : (1 + interest_rate / 1200) ^ tenure_months - 1 ≠ 0 :=
    sub_ne_zero.mpr (ne_of_gt hpow)
  rw [emi_amortization]
  simp only [h1200]
  rw [if_neg hden]

/-- C5 witness: the reducing-balance formula applied at `principal = 1200`,
annual rate `12`, tenure `1` month, where the exact results are `1212`,
`1212`, and `12`. -/
theorem C5_emi_formula_witness :
    emi_amortization 1200 12 1 =
      some { monthly_payment := 1212, total_payment := 1212, total_interest := 12 } := by
  have h := C5_emi_formula 1200 12 1 (by norm_num) (by norm_num)
  rw [h]
  norm_num [EmiResult.mk.injEq]

/-- C6: evaluation at the failing input — summing over a loan list (or card
list) containing a `None` entry crashes at src/app.py line 121/122
(`None.get` raises `AttributeError`, modelled `none`), while the same input
at `visualize_debt_to_income` (lines 400-417) drops the entry and yields `0`;
a non-numeric `emi` likewise crashes at line 121 but is skipped at line 406. -/
theorem C6_null_entry_behaviour :
    totalEmiAnalyze [none] = none ∧
      totalMinimumDuesAnalyze [none] = none ∧
      total_emi [none] = 0 ∧
      total_minimum_dues [none] = 0 ∧
      total_emi [some { emi := JVal.str "n/a" }] = 0 ∧
      totalEmiAnalyze [some { emi := JVal.str "n/a" }] = none := by
  refine ⟨rfl, rfl, rfl, rfl, rfl, rfl⟩

/-- C9: the 50/30/20 allocation (src/app.py lines 426-428) returns
`essentials = income * 0.5`, `wants = income * 0.3`, `savings = income * 0.2`,
and the three parts sum exactly to `income` (the arithmetic is exact over
`ℚ`). -/
theorem C9_income_allocation (income : ℚ) (h : 0 ≤ income) :
    (income_allocation income).essentials = income * 0.5 ∧
      (income_allocation income).wants = income * 0.3 ∧
      (income_allocation income).savings = income * 0.2 ∧
      (income_allocation income).essentials + (income_allocation income).wants +
          (income_allocation income).savings = income := by
  refine ⟨rfl, rfl, rfl, ?_⟩
  show income * 0.5 + income * 0.3 + income * 0.2 = income
  ring_nf

/-- C9 witness: the allocation identity applied at income `100`. -/
theorem C9_income_allocation_witness :
    (income_allocation 100).essentials + (income_allocation 100).wants +
        (income_allocation 100).savings = 100 :=
  (C9_income_allocation 100 (by norm_num)).2.2.2

/-- C2: for every profile, preference set and catalog, `get_suitable_cards`
returns at most 5 entries, and every returned entry satisfies
`credit_score_requirement ≤ credit_score` and
`income_requirement ≤ monthly_income * 12` with respect to the
`None`-defaulted profile values (src/app.py lines 325-352); the function is
total, so an empty result is an ordinary value. -/
theorem C2_get_suitable_cards_sound (credit_score monthly_income : Option ℚ)
    (preferences : List String) (card_database : List CardOffer) :
    (get_suitable_cards credit_score monthly_income preferences card_database).length ≤ 5 ∧
      ∀ c ∈ get_suitable_cards credit_score monthly_income preferences card_database,
        scoreReq c ≤ credit_score.getD 700 ∧
          incomeReq c ≤ monthly_income.getD 50000 * 12 := by
  constructor
  · rw [get_suitable_cards, List.length_take]
    exact min_le_left _ _
  · intro c hc
    have h1 : c ∈ preTrunc credit_score monthly_income preferences card_database :=
      (List.take_sublist 5 _).subset hc
    have h2 : c ∈ suitableFilter (credit_score.getD 700) (monthly_income.getD 50000)
        preferences card_database := mem_sortDesc.mp h1
    have h3 := (List.mem_filter.mp h2).2
    rw [Bool.and_eq_true] at h3
    have h4 := h3.1
    rw [eligibleB, Bool.and_eq_true, decide_eq_true_eq, decide_eq_true_eq] at h4
    exact h4

/-- C2 witness: the soundness bound applied to the first catalog card for the
sample profile (credit score 750, monthly income 150000). -/
theorem C2_get_suitable_cards_sound_witness :
    scoreReq cardDinersBlack ≤ (some (750 : ℚ)).getD 700 ∧
      incomeReq cardDinersBlack ≤ (some (150000 : ℚ)).getD 50000 * 12 := by
  apply (C2_get_suitable_cards_sound (some 750) (some 150000) []
    generate_credit_card_database).2
  norm_num [get_suitable_cards, preTrunc, suitableFilter, sortDesc,
    generate_credit_card_database, eligibleB, matchesPref, scoreReq, incomeReq,
    categoryOf, cardDinersBlack, cardSbiElite, List.insertionSort,
    List.orderedInsert, cardBefore, keyLe, sortKey]

/-- C7: with an empty preference list the pre-truncation result of
`get_suitable_cards` is exactly the sorted eligible set with no category
filter at all, and with a non-empty preference list an entry is in the
pre-truncation result iff it is an eligible catalog entry whose category is a
member of the preference list (exact, case-sensitive string equality, as
Python's `in`). -/
theorem C7_category_filter (credit_score monthly_income : Option ℚ)
    (card_database : List CardOffer) :
    preTrunc credit_score monthly_income [] card_database =
      sortDesc (card_database.filter
        (fun c => eligibleB (credit_score.getD 700)
          (monthly_income.getD 50000 * 12) c)) ∧
      ∀ (preferences : List String) (c : CardOffer), preferences ≠ [] →
        (c ∈ preTrunc credit_score monthly_income preferences card_database ↔
          c ∈ card_database ∧
            eligibleB (credit_score.getD 700) (monthly_income.getD 50000 * 12) c
              = true ∧
            categoryOf c ∈ preferences) := by
  constructor
  · rw [preTrunc, suitableFilter]
    congr 1
    apply List.filter_congr
    intro x _
    simp [matchesPref]
  · intro preferences c hne
    rw [preTrunc, mem_sortDesc, suitableFilter, List.mem_filter, Bool.and_eq_true]
    have hm : matchesPref preferences c = true ↔ categoryOf c ∈ preferences := by
      simp [matchesPref, hne]
    rw [hm]

/-- C7 witness: the membership characterisation applied at the non-empty
preference list `["travel"]` and the second catalog card. -/
theorem C7_category_filter_witness :
    cardSbiElite ∈ preTrunc (some 750) (some 150000) ["travel"]
      generate_credit_card_database := by
  apply ((C7_category_filter (some 750) (some 150000)
    generate_credit_card_database).2 ["travel"] cardSbiElite (by simp)).mpr
  refine ⟨by simp [generate_credit_card_database], ?_, ?_⟩
  · norm_num [eligibleB, scoreReq, incomeReq, cardSbiElite]
  · simp [categoryOf, cardSbiElite]

/-- C8: the pre-truncation result of `get_suitable_cards` is ordered
descending by the lexicographic pair `(income_requirement,
credit_score_requirement)` — every earlier entry's key is `≥` every later
entry's key, so an eligible entry with the strictly larger pair precedes one
with a smaller pair — and the sort is stable: restricting the sorted result
to any fixed key value yields exactly the entries with that key in their
original catalog order. -/
theorem C8_sort_spec (credit_score monthly_income : Option ℚ)
    (preferences : List String) (card_database : List CardOffer) :
    List.Pairwise (fun a b => keyLe (sortKey b) (sortKey a))
        (preTrunc credit_score monthly_income preferences card_database) ∧
      ∀ v : ℚ × ℚ,
        (preTrunc credit_score monthly_income preferences card_database).filter
            (fun c => sortKey c = v) =
          (suitableFilter (credit_score.getD 700) (monthly_income.getD 50000)
              preferences card_database).filter (fun c => sortKey c = v) := by
  constructor
  · exact pairwise_sortDesc _
  · intro v
    exact filter_sortDesc v _

/-- A catalog entry with no `credit_score_requirement` key but a very large
`income_requirement`, used to refute the universal-eligibility reading of
C10. -/
def cardNoScoreReq : CardOffer :=
  { name := "No Score Requirement"
    issuer := "Test Bank"
    annual_fee := 0
    income_requirement := some 1000000000
    credit_score_requirement := none
    category := some "travel" }

/-- C10 counterexample: an entry missing only its `credit_score_requirement`
(treated as 0) but demanding an annual income of 10^9 is not eligible for
the normalized profile with credit score 750 and monthly income 50000, and
`get_suitable_cards` returns the empty list for it — refuting "missing
either requirement field makes the entry eligible for every normalized
profile". -/
theorem C10_counterexample :
    cardNoScoreReq.credit_score_requirement = none ∧
      eligibleB 750 (50000 * 12) cardNoScoreReq = false ∧
      get_suitable_cards (some 750) (some 50000) [] [cardNoScoreReq] = [] := by
  refine ⟨rfl, ?_, ?_⟩
  · norm_num [eligibleB, scoreReq, incomeReq, cardNoScoreReq]
  · norm_num [get_suitable_cards, preTrunc, suitableFilter, sortDesc, eligibleB,
      matchesPref, scoreReq, incomeReq, categoryOf, cardNoScoreReq,
      List.insertionSort]

/-- A catalog entry with all three optional keys absent, used to witness the
amended C10. -/
def cardAllDefaults : CardOffer :=
  { name := "All Defaults"
    issuer := "Test Bank"
    annual_fee := 0
    income_requirement := none
    credit_score_requirement := none
    category := none }

/-- C10 (amended): a missing `credit_score_requirement` or
`income_requirement` is treated as requirement `0`, so that particular
requirement is satisfied by every profile with non-negative normalized
credit score resp. annual income (an entry missing both is eligible for every
such profile); an entry missing its `category` is treated as category `""`
and passes the category filter iff the preference list is empty or contains
the empty string — the app's preference vocabulary never contains `""`, so
in the app it passes only when the preference list is empty. -/
theorem C10_missing_fields (credit_score annual_income : ℚ)
    (hcs : 0 ≤ credit_score) (hai : 0 ≤ annual_income) (c : CardOffer) :
    (c.credit_score_requirement = none → scoreReq c = 0 ∧ scoreReq c ≤ credit_score) ∧
      (c.income_requirement = none → incomeReq c = 0 ∧ incomeReq c ≤ annual_income) ∧
      (c.credit_score_requirement = none → c.income_requirement = none →
        eligibleB credit_score annual_income c = true) ∧
      (c.category = none → ∀ preferences : List String,
        (matchesPref preferences c = true ↔ preferences = [] ∨ "" ∈ preferences)) := by
  refine ⟨?_, ?_, ?_, ?_⟩
  · intro h
    have h0 : scoreReq c = 0 := by simp [scoreReq, h]
    rw [h0]
    exact ⟨rfl, hcs⟩
  · intro h
    have h0 : incomeReq c = 0 := by simp [incomeReq, h]
    rw [h0]
    exact ⟨rfl, hai⟩
  · intro h1 h2
    simp [eligibleB, scoreReq, incomeReq, h1, h2, hcs, hai]
  · intro h preferences
    simp [matchesPref, categoryOf, h]

/-- C10 witness: the amended characterisation applied to the all-defaults
entry and the normalized profile (credit score 750, annual income 600000). -/
theorem C10_missing_fields_witness :
    eligibleB 750 600000 cardAllDefaults = true ∧
      (matchesPref [] cardAllDefaults = true ↔
        ([] : List String) = [] ∨ "" ∈ ([] : List String)) := by
  have h := C10_missing_fields 750 600000 (by norm_num) (by norm_num) cardAllDefaults
  exact ⟨h.2.2.1 rfl rfl, h.2.2.2 rfl []⟩

end FinApp
